import Mathlib

/-!
Verification of the claude-tracker account/credential synchronization core.

This file gives a shallow embedding, in Lean 4, of the Rust modules
src/oauth.rs, src/app.rs, src/swap.rs, src/api.rs, src/error.rs and
src/config.rs of the claude-tracker repository, and proves (or refutes)
the frozen specification claims about them.

Modelling conventions:
- serde_json values are modelled by the inductive `Json` below.  A JSON
  number keeps the distinction serde_json makes between integer-stored
  numbers (i64/u64) and float-stored numbers (f64); float values are
  modelled as exact rationals, and f64 arithmetic as exact rational
  arithmetic (all concrete values in the claims are exactly representable).
- machine integers are modelled as Int/Nat with explicit range conditions
  where the Rust code relies on them (i64 range, u32 saturating casts).
- chrono timestamps (epoch milliseconds) are modelled as Int; `Utc::now()`
  is threaded through as an explicit `now` parameter.
- the keyring secret store is modelled as an association list; fallible
  writes take an explicit failure oracle and the functions additionally
  return the list of keyring calls they issued, mirroring the call-order
  recording test double described in the spec.
-/

/-! ### JSON values (serde_json::Value) -/

/-- A JSON value as serde_json stores it.  `int` is a number stored as
i64/u64, `float` one stored as f64 (modelled by its exact rational value).
Arrays are omitted: no embedded function consumes them. -/
inductive Json where
  | null : Json
  | bool (b : Bool) : Json
  | int (n : Int) : Json
  | float (q : ℚ) : Json
  | str (s : String) : Json
  | obj (fields : List (String × Json)) : Json

/-- First binding of `key` in an object field list (serde_json `get`). -/
def Json.findField : List (String × Json) → String → Option Json
  | [], _ => none
  | (k, v) :: rest, key => if k = key then some v else Json.findField rest key

/-- `Value::get(key)`: field lookup on objects, `None` elsewhere. -/
def Json.get (j : Json) (key : String) : Option Json :=
  match j with
  | .obj fields => Json.findField fields key
  | _ => none

/-- `Value::as_str`. -/
def Json.asStr : Json → Option String
  | .str s => some s
  | _ => none

/-- `Value::as_i64`: integer-stored numbers inside the i64 range. -/
def Json.asI64 : Json → Option Int
  | .int n => if -(2 ^ 63) ≤ n ∧ n < 2 ^ 63 then some n else none
  | _ => none

/-- `Value::as_u64`: integer-stored numbers inside the u64 range. -/
def Json.asU64 : Json → Option Int
  | .int n => if 0 ≤ n ∧ n < 2 ^ 64 then some n else none
  | _ => none

/-- `Value::as_f64`: any JSON number, as its (exact) numeric value. -/
def Json.asF64 : Json → Option ℚ
  | .int n => some (n : ℚ)
  | .float q => some q
  | _ => none

/-! ### Rust numeric conversions used by the embedded code -/

/-- Rust `f64::round`: round half away from zero. -/
def rustRound (q : ℚ) : Int :=
  if 0 ≤ q then ⌊q + 1 / 2⌋ else -⌊-q + 1 / 2⌋

/-- Rust `as u32` on a rounded float: saturating cast into [0, 2^32 - 1]. -/
def castU32 (n : Int) : ℕ :=
  if n < 0 then 0 else min n.toNat (2 ^ 32 - 1)

/-- Rust `as i64` on a float: truncate toward zero, saturating at the i64
range bounds. -/
def castI64 (q : ℚ) : Int :=
  let t : Int := if 0 ≤ q then ⌊q⌋ else ⌈q⌉
  max (-(2 ^ 63)) (min t (2 ^ 63 - 1))

/-! ### OAuth credentials (src/oauth.rs) -/

/-- `OAuthCredential` from src/oauth.rs: access token, refresh token and
absolute expiry in epoch milliseconds (an i64 in the source). -/
structure OAuthCredential where
  access_token : String
  refresh_token : String
  expires_at : Int
  deriving DecidableEq, Repr

/-- `OAuthCredential::needs_refresh`, with `Utc::now().timestamp_millis()`
passed in as `now`: refresh when within the 15 minute buffer of expiry. -/
def needs_refresh (now : Int) (c : OAuthCredential) : Bool :=
  decide (now + 15 * 60 * 1000 ≥ c.expires_at)

/-- `parse_credential_json` from src/oauth.rs, after serde_json parsing
(this function takes the parsed `Json` value).  Accepts the `claudeAiOauth`
wrapper with fallback to the top level, both historical field namings, and
`expiresAt` as integer or float; a missing expiry silently defaults to 0. -/
def parse_credential_json (value : Json) : Except String OAuthCredential :=
  let creds := (value.get "claudeAiOauth").getD value
  let accessTok := (match creds.get "accessToken" with
    | some v => some v
    | none => creds.get "access_token").bind Json.asStr
  let refreshTok := (match creds.get "refreshToken" with
    | some v => some v
    | none => creds.get "refresh_token").bind Json.asStr
  let expires := ((match creds.get "expiresAt" with
    | some v => some v
    | none => creds.get "expires_at").bind fun v =>
      match v.asI64 with
      | some n => some n
      | none => (v.asF64).map castI64).getD 0
  match accessTok with
  | none => .error "Missing access_token in Claude Code credentials"
  | some a =>
    match refreshTok with
    | none => .error "Missing refresh_token in Claude Code credentials"
    | some r => .ok { access_token := a, refresh_token := r, expires_at := expires }

/-- The serde-derived serialization of `OAuthCredential`
(`serde_json::to_string(&cred)`), as a JSON value: the three fields under
their Rust names. -/
def credential_to_json (c : OAuthCredential) : Json :=
  .obj [("access_token", .str c.access_token),
        ("refresh_token", .str c.refresh_token),
        ("expires_at", .int c.expires_at)]

/-- The serde-derived deserialization `serde_json::from_str::<OAuthCredential>`,
on the parsed JSON value: all three fields required, `expires_at` an i64. -/
def credential_from_json (j : Json) : Except String OAuthCredential :=
  match (j.get "access_token").bind Json.asStr with
  | none => .error "missing field access_token"
  | some a =>
    match (j.get "refresh_token").bind Json.asStr with
    | none => .error "missing field refresh_token"
    | some r =>
      match (j.get "expires_at").bind Json.asI64 with
      | none => .error "missing field expires_at"
      | some e => .ok { access_token := a, refresh_token := r, expires_at := e }

/-- The external-tool JSON shape built by `swap_claude_code_credential` in
src/swap.rs: the `claudeAiOauth` wrapper holding `accessToken`,
`refreshToken` and `expiresAt`. -/
def claude_code_json (c : OAuthCredential) : Json :=
  .obj [("claudeAiOauth",
    .obj [("accessToken", .str c.access_token),
          ("refreshToken", .str c.refresh_token),
          ("expiresAt", .int c.expires_at)])]

/-! ### Usage bucket parsing (src/oauth.rs) -/

/-- The numeric reading `v.as_u64().map(|n| n as f64).or_else(|| v.as_f64())`
used by `parse_utilization`. -/
def json_numeric_value (v : Json) : Option ℚ :=
  match v.asU64 with
  | some n => some ((n : ℚ))
  | none => v.asF64

/-- `parse_utilization` from src/oauth.rs: read the `utilization` field as
u64 or f64; values in the half-open interval (0, 1] are fractions and are
scaled by 100 before rounding, everything else is rounded directly; the
result of `f64::round` is cast to u32 (saturating).  Missing or
non-numeric utilization yields 0. -/
def parse_utilization (bucket : Json) : ℕ :=
  match (bucket.get "utilization").bind json_numeric_value with
  | some v => if 0 < v ∧ v ≤ 1 then castU32 (rustRound (v * 100)) else castU32 (rustRound v)
  | none => 0

/-! ### Keyring secret store (src/keyring_store.rs)

The `KeyringBackend` trait exposes get/set/delete by account name.  The
store state is an association list from account name to the stored secret
string; functions that call the backend also return the list of calls they
issued, in order, mirroring the call-order-recording test double. -/

/-- One call to the keyring backend (operation and account name). -/
inductive KeyOp where
  | get (name : String) : KeyOp
  | set (name : String) : KeyOp
  | delete (name : String) : KeyOp
  deriving DecidableEq, Repr

/-- Keyring store state for app-level operations: account name to secret
string (session key, or serialized OAuth credential JSON). -/
def Keyring := List (String × String)

/-- `get_session_key`: first binding for the name, if any. -/
def Keyring.get : Keyring → String → Option String
  | [], _ => none
  | (k, v) :: rest, name => if k = name then some v else Keyring.get rest name

/-- A successful `set_session_key`: replace the first binding for the name,
or append a new one. -/
def Keyring.set : Keyring → String → String → Keyring
  | [], name, value => [(name, value)]
  | (k, v) :: rest, name, value =>
    if k = name then (k, value) :: rest else (k, v) :: Keyring.set rest name value

/-- `delete_session_key`: drop every binding for the name (idempotent:
deleting an absent entry is not an error). -/
def Keyring.delete : Keyring → String → Keyring
  | [], _ => []
  | (k, v) :: rest, name =>
    if k = name then Keyring.delete rest name else (k, v) :: Keyring.delete rest name

/-! ### OAuth import/refresh reconciler (src/oauth.rs)

`get_stored_token_with_fallback` reads the stored credential JSON for an
account, and when it needs refresh may adopt the credential currently
observed in the external tool's keychain (passed in as `cc_credential`) —
but only when that credential is live and its refresh token matches.

The stored secret string is represented by its parsed JSON value (the
source stores the `serde_json::to_string` serialization, a lossless codec);
the store for this function is therefore an association list of `Json`
blobs.  The function returns the token result, the new store, and the
keyring call trace. -/

/-- Store of parsed credential blobs for the OAuth reconciler. -/
def OAuthStore := List (String × Json)

/-- First stored blob under the name, if any (`get_session_key`). -/
def OAuthStore.get : OAuthStore → String → Option Json
  | [], _ => none
  | (k, v) :: rest, name => if k = name then some v else OAuthStore.get rest name

/-- Replace-or-append a blob (`set_session_key`). -/
def OAuthStore.set : OAuthStore → String → Json → OAuthStore
  | [], name, value => [(name, value)]
  | (k, v) :: rest, name, value =>
    if k = name then (k, value) :: rest else (k, v) :: OAuthStore.set rest name value

/-- `get_stored_token_with_fallback` from src/oauth.rs.  `now` is
`Utc::now().timestamp_millis()`.  Returns (result, store after the call,
keyring call trace).  The store write on adoption has its error ignored in
the source (`let _ = keyring.set_session_key(...)`); the pure store model
always succeeds. -/
def get_stored_token_with_fallback (now : Int) (store : OAuthStore)
    (account_name : String) (cc_credential : Option OAuthCredential) :
    Except String String × OAuthStore × List KeyOp :=
  match store.get account_name with
  | none => (.error "No OAuth credential stored", store, [KeyOp.get account_name])
  | some blob =>
    match credential_from_json blob with
    | .error e => (.error ("Invalid OAuth credential JSON: " ++ e), store,
        [KeyOp.get account_name])
    | .ok cred =>
      if needs_refresh now cred = false then
        (.ok cred.access_token, store, [KeyOp.get account_name])
      else
        match cc_credential with
        | some fresh =>
          if needs_refresh now fresh = false ∧ fresh.refresh_token = cred.refresh_token then
            (.ok fresh.access_token,
             store.set account_name (credential_to_json fresh),
             [KeyOp.get account_name, KeyOp.set account_name])
          else
            (.ok cred.access_token, store, [KeyOp.get account_name])
        | none => (.ok cred.access_token, store, [KeyOp.get account_name])

/-! ### Account registry and application state (src/app.rs, src/config.rs)

The registry owner is single-threaded; each operation is a pure function
from (keyring, state) to (keyring, state).  Config persistence
(`save_config`) is write-only side I/O and is not part of the embedded
state; `Utc::now()` is the explicit `now` parameter.  The text-input
editing state (`InputFields`) is not consumed by any embedded operation
and is omitted. -/

/-- `AuthMethod` from src/config.rs. -/
inductive AuthMethod where
  | SessionKey : AuthMethod
  | OAuth : AuthMethod
  deriving DecidableEq, Repr

/-- `AccountConfig` from src/config.rs: persisted account metadata. -/
structure AccountConfig where
  name : String
  org_id : String
  auth_method : AuthMethod
  deriving DecidableEq, Repr

/-- `Settings` from src/config.rs. -/
structure Settings where
  poll_interval_secs : ℕ
  active_account : ℕ
  deriving DecidableEq, Repr

/-- `Config` from src/config.rs. -/
structure Config where
  settings : Settings
  accounts : List AccountConfig
  deriving DecidableEq, Repr

/-- `UsageData` from src/app.rs: the two quota buckets.  Reset timestamps
are epoch milliseconds. -/
structure UsageData where
  utilization : ℕ
  resets_at : Option Int
  weekly_utilization : Option ℕ
  weekly_resets_at : Option Int
  deriving DecidableEq, Repr

/-- `AccountStatus` from src/app.rs. -/
inductive AccountStatus where
  | Idle : AccountStatus
  | Ok : AccountStatus
  | Error (reason : String) : AccountStatus
  deriving DecidableEq, Repr

/-- `AccountState` from src/app.rs: per-account runtime state. -/
structure AccountState where
  config : AccountConfig
  usage : Option UsageData
  status : AccountStatus
  last_fetched : Option Int
  cached_token : Option String
  deriving DecidableEq, Repr

/-- `AppMode` from src/app.rs. -/
inductive AppMode where
  | Normal : AppMode
  | AddAccount : AppMode
  | EditAccount (index : ℕ) : AppMode
  | ConfirmDelete : AppMode
  | ConfirmSwap : AppMode
  | Help : AppMode
  deriving DecidableEq, Repr

/-- `AppState` from src/app.rs (the keyring handle is passed to each
operation separately; `InputFields` is omitted, see the section comment). -/
structure AppState where
  accounts : List AccountState
  selected_index : ℕ
  active_account_index : ℕ
  mode : AppMode
  should_quit : Bool
  last_poll : Option Int
  status_message : Option (String × Int)
  poll_interval_secs : ℕ
  logged_in_account : Option String
  deriving DecidableEq, Repr

/-- `AppState::set_status`. -/
def AppState.set_status (s : AppState) (msg : String) (now : Int) : AppState :=
  { s with status_message := some (msg, now) }

/-- `AppState::from_config`: build runtime accounts from the persisted
config (cached tokens read from the keyring), selection at 0, and the
persisted active-account index clamped by
`min(active_account, accounts.len().saturating_sub(1))`. -/
def AppState.from_config (config : Config) (keyring : Keyring) : AppState :=
  let accounts : List AccountState := config.accounts.map fun ac =>
    { config := ac
      usage := none
      status := .Idle
      last_fetched := none
      cached_token := keyring.get ac.name }
  { accounts := accounts
    selected_index := 0
    active_account_index := min config.settings.active_account (accounts.length - 1)
    mode := .Normal
    should_quit := false
    last_poll := none
    status_message := none
    poll_interval_secs := config.settings.poll_interval_secs
    logged_in_account := none }

/-- Mutate the first list element satisfying `p` (the effect of
`iter_mut().find(p)` followed by a mutation); also reports whether a
matching element was found. -/
def updateFirst (p : AccountState → Bool) (f : AccountState → AccountState) :
    List AccountState → List AccountState × Bool
  | [] => ([], false)
  | a :: rest =>
    if p a then (f a :: rest, true)
    else
      let r := updateFirst p f rest
      (a :: r.1, r.2)

/-- `AppState::apply_usage_result` from src/app.rs: route the result by
account name; on success replace the snapshot, set status Ok and
`last_fetched = now`; on error set status Error only.  `last_poll` is set
only when the named account exists — a result for a deleted account is
discarded entirely. -/
def AppState.apply_usage_result (s : AppState) (now : Int) (account_name : String)
    (result : Except String UsageData) : AppState :=
  let step := updateFirst (fun a => a.config.name = account_name)
    (fun account =>
      match result with
      | .ok data =>
        { account with usage := some data, status := .Ok, last_fetched := some now }
      | .error msg => { account with status := .Error msg })
    s.accounts
  if step.2 then { s with accounts := step.1, last_poll := some now } else s

/-- `AppState::add_account` from src/app.rs.  `fail_set name = some e`
models a keyring `set_session_key` failure with backend message `e`.
Returns (keyring, state, `Some(index)` on success). -/
def AppState.add_account (s : AppState) (keyring : Keyring)
    (fail_set : String → Option String) (now : Int)
    (name session_key org_id : String) : Keyring × AppState × Option ℕ :=
  if s.accounts.any fun a => a.config.name = name then
    (keyring, s.set_status ("Account " ++ name ++ " already exists") now, none)
  else
    match fail_set name with
    | some e => (keyring, s.set_status ("Keyring error: " ++ e) now, none)
    | none =>
      let ac : AccountConfig := { name := name, org_id := org_id, auth_method := .SessionKey }
      let accounts := s.accounts ++
        [{ config := ac, usage := none, status := .Idle, last_fetched := none,
           cached_token := some session_key }]
      (keyring.set name session_key,
       { s with accounts := accounts, status_message := some ("Account added", now) },
       some (accounts.length - 1))

/-- `AppState::update_account` from src/app.rs: write the secret under the
new name first; only when that write succeeds delete the old name's secret
(when the name changed; a delete failure would only warn) and mutate the
entry.  Returns (keyring, state, keyring call trace). -/
def AppState.update_account (s : AppState) (keyring : Keyring)
    (fail_set : String → Option String) (now : Int)
    (index : ℕ) (name session_key org_id : String) :
    Keyring × AppState × List KeyOp :=
  match s.accounts.get? index with
  | none => (keyring, s, [])
  | some acc =>
    let old_name := acc.config.name
    let name_changed := old_name ≠ name
    match fail_set name with
    | some e =>
      (keyring, s.set_status ("Keyring error: " ++ e) now, [KeyOp.set name])
    | none =>
      let kr1 := keyring.set name session_key
      let kr2 := if name_changed then kr1.delete old_name else kr1
      let trace := if name_changed then [KeyOp.set name, KeyOp.delete old_name]
        else [KeyOp.set name]
      let accounts2 := (s.accounts.take index) ++
        (match s.accounts.get? index with
         | some a => [{ a with
             config := { a.config with name := name, org_id := org_id }
             cached_token := some session_key
             usage := none
             status := .Idle }]
         | none => []) ++ s.accounts.drop (index + 1)
      (kr2,
       { s with accounts := accounts2, status_message := some ("Account updated", now) },
       trace)

/-- `AppState::delete_selected` from src/app.rs: delete the keyring entry
(best effort), remove the registry entry, then clamp both cursors. -/
def AppState.delete_selected (s : AppState) (keyring : Keyring) (now : Int) :
    Keyring × AppState :=
  if s.selected_index < s.accounts.length then
    let name := match s.accounts.get? s.selected_index with
      | some a => a.config.name
      | none => ""
    let accounts := s.accounts.eraseIdx s.selected_index
    let sel := if accounts.isEmpty then 0
      else if s.selected_index ≥ accounts.length then accounts.length - 1
      else s.selected_index
    let act := if accounts.isEmpty then 0
      else if s.active_account_index ≥ accounts.length then accounts.length - 1
      else s.active_account_index
    (keyring.delete name,
     { s with
       accounts := accounts
       selected_index := sel
       active_account_index := act
       status_message := some ("Account deleted", now) })
  else (keyring, s)

/-- `OAuthImportData` from src/event.rs. -/
structure OAuthImportData where
  name : String
  org_id : String
  access_token : String
  deriving DecidableEq, Repr

/-- `AppState::import_oauth_account` from src/app.rs: store the access
token, then update an existing same-named account in place (clearing
usage/status) or append a new one. -/
def AppState.import_oauth_account (s : AppState) (keyring : Keyring)
    (fail_set : String → Option String) (now : Int)
    (data : OAuthImportData) : Keyring × AppState × Option ℕ :=
  match fail_set data.name with
  | some e => (keyring, s.set_status ("Keyring error: " ++ e) now, none)
  | none =>
    let kr := keyring.set data.name data.access_token
    match s.accounts.findIdx? fun a => a.config.name = data.name with
    | some pos =>
      let accounts := (s.accounts.take pos) ++
        (match s.accounts.get? pos with
         | some a => [{ a with
             config := { a.config with org_id := data.org_id, auth_method := .OAuth }
             cached_token := some data.access_token
             usage := none
             status := .Idle }]
         | none => []) ++ s.accounts.drop (pos + 1)
      (kr,
       { s with
         accounts := accounts
         status_message := some ("Updated OAuth account " ++ data.name, now) },
       some pos)
    | none =>
      let ac : AccountConfig :=
        { name := data.name, org_id := data.org_id, auth_method := .OAuth }
      let accounts := s.accounts ++
        [{ config := ac, usage := none, status := .Idle, last_fetched := none,
           cached_token := some data.access_token }]
      (kr,
       { s with
         accounts := accounts
         status_message := some ("Imported OAuth account " ++ data.name, now) },
       some (accounts.length - 1))

/-- `AppState::swap_to_selected` from src/app.rs: when the selection is in
range, set the active-account cursor to it and report success.  Note: this
is the whole function — it performs no credential push and consults no
secret store. -/
def AppState.swap_to_selected (s : AppState) (now : Int) : AppState :=
  if s.selected_index < s.accounts.length then
    let name := match s.accounts.get? s.selected_index with
      | some a => a.config.name
      | none => ""
    { s with
      active_account_index := s.selected_index
      status_message := some ("Active: " ++ name, now) }
  else s

/-- The `j`/Down arm of `handle_normal_key` (src/app.rs): advance the
selection modulo the account count when the list is nonempty. -/
def AppState.select_next (s : AppState) : AppState :=
  if s.accounts.isEmpty then s
  else { s with selected_index := (s.selected_index + 1) % s.accounts.length }

/-- The `k`/Up arm of `handle_normal_key` (src/app.rs): move the selection
up, wrapping from 0 to the end, when the list is nonempty. -/
def AppState.select_prev (s : AppState) : AppState :=
  if s.accounts.isEmpty then s
  else if s.selected_index = 0 then
    { s with selected_index := s.accounts.length - 1 }
  else { s with selected_index := s.selected_index - 1 }

/-! ### Credential swap orchestrator (src/swap.rs)

`swap_claude_code_credential` resolves the stored OAuth credential,
re-encodes it into the external tool's expected JSON shape and overwrites
that tool's keychain entry (delete-then-add).  The successful case is
modelled by the JSON payload that is written to the external entry. -/

/-- `swap_claude_code_credential` from src/swap.rs.  The store holds the
parsed stored blobs (see `OAuthStore`); `.ok payload` means the external
keychain entry was overwritten with `payload`. -/
def swap_claude_code_credential (store : OAuthStore) (account_name : String)
    (auth_method : AuthMethod) : Except String Json :=
  match auth_method with
  | .OAuth =>
    match store.get account_name with
    | none => .error ("No OAuth credential for " ++ account_name)
    | some blob =>
      match credential_from_json blob with
      | .error e => .error ("Invalid OAuth credential: " ++ e)
      | .ok cred => .ok (claude_code_json cred)
  | .SessionKey =>
    .error "Session key accounts use s swap with active_session.json"

/-! ### Error taxonomy and fetch failure translation (src/error.rs, src/api.rs)

src/error.rs defines the structured error enums of the program; the
`display` functions below are the `thiserror` format strings.  The fetch
path in src/api.rs flattens every failure into a `String` with
`format!` using the alternate anyhow formatter, and that string is what is
sent over the channel and applied to the registry. -/

/-- `ConfigError` from src/error.rs. -/
inductive ConfigError where
  | NoHomeDir : ConfigError
  | ReadFailed (msg : String) : ConfigError
  | ParseFailed (msg : String) : ConfigError
  | SerializeFailed (msg : String) : ConfigError
  | Validation (msg : String) : ConfigError
  deriving DecidableEq, Repr

/-- The `thiserror` display of `ConfigError`. -/
def ConfigError.display : ConfigError → String
  | .NoHomeDir => "Could not determine home directory"
  | .ReadFailed m => "Failed to read config: " ++ m
  | .ParseFailed m => "Failed to parse config: " ++ m
  | .SerializeFailed m => "Failed to serialize config: " ++ m
  | .Validation m => "Validation error: " ++ m

/-- `TrackerError` from src/error.rs: the program's whole structured error
taxonomy (four kinds). -/
inductive TrackerError where
  | Config (e : ConfigError) : TrackerError
  | Api (account : String) (message : String) : TrackerError
  | Swap (msg : String) : TrackerError
  | Keyring (msg : String) : TrackerError
  deriving DecidableEq, Repr

/-- The `thiserror` display of `TrackerError`. -/
def TrackerError.display : TrackerError → String
  | .Config e => "Config error: " ++ e.display
  | .Api account message => "API error for account " ++ account ++ ": " ++ message
  | .Swap m => "Swap error: " ++ m
  | .Keyring m => "Keyring error: " ++ m

/-- The constructor (kind) name of a `TrackerError`. -/
def TrackerError.kindName : TrackerError → String
  | .Config _ => "Config"
  | .Api _ _ => "Api"
  | .Swap _ => "Swap"
  | .Keyring _ => "Keyring"

/-- A failed HTTP call at the third-party HTTP client boundary (reqwest):
a non-2xx response rejected by `error_for_status`, a request timeout, or a
connect/DNS failure. -/
inductive HttpFailure where
  | status (code : ℕ) (reason : String) (url : String) : HttpFailure
  | timeout (url : String) : HttpFailure
  | connect (detail : String) : HttpFailure
  deriving DecidableEq, Repr

/-- The display of a reqwest failure, modelled at the library boundary: a
status error renders as
`HTTP status client error (<code> <reason>) for url (<url>)`
(server error for 5xx), the transport failures as
`error sending request: ...`.  What the claims rely on is only that the
numeric status code appears in the rendered text, which reqwest
guarantees. -/
def HttpFailure.display : HttpFailure → String
  | .status code reason url =>
    "HTTP status " ++ (if code < 500 then "client error" else "server error") ++
      " (" ++ toString code ++ " " ++ reason ++ ") for url (" ++ url ++ ")"
  | .timeout url => "error sending request for url (" ++ url ++ "): operation timed out"
  | .connect detail => "error sending request: connect error: " ++ detail

/-- `fetch_account_usage` from src/api.rs, as a function of the outcomes of
its three effects: the keyring session-key lookup (session-key path), the
`get_stored_token` resolution (OAuth path, already a `String` error from
`anyhow`), and the HTTP call.  Every failure is flattened with
`format!` of the error chain into the `String` that is sent over the
event channel. -/
def fetch_account_usage (auth_method : AuthMethod)
    (secret_result : Except TrackerError String)
    (token_result : Except String String)
    (http_result : Except HttpFailure UsageData) : Except String UsageData :=
  match auth_method with
  | .SessionKey =>
    match secret_result with
    | .error e => .error e.display
    | .ok _ =>
      match http_result with
      | .error f => .error f.display
      | .ok data => .ok data
  | .OAuth =>
    match token_result with
    | .error e => .error e
    | .ok _ =>
      match http_result with
      | .error f => .error f.display
      | .ok data => .ok data

/-- Modelled from the spec (section 4.3, failure mapping): the five
human-actionable error kinds the spec says every fetch failure is
translated into.  This type exists in the spec only — the source has no
counterpart — and is used solely to compare the spec's claim with the
code. -/
inductive SpecErrorKind where
  | Unauthorized : SpecErrorKind
  | RateLimited : SpecErrorKind
  | Timeout : SpecErrorKind
  | NetworkUnreachable : SpecErrorKind
  | Other (detail : String) : SpecErrorKind
  deriving DecidableEq, Repr

/-- Modelled from the spec (section 4.3): the classification the spec
prescribes — 401/403 to Unauthorized, 429 to RateLimited, timeouts to
Timeout, DNS/connect failures to NetworkUnreachable, everything else to
Other with detail. -/
def spec_classify (f : HttpFailure) : SpecErrorKind :=
  match f with
  | .status code _ _ =>
    if code = 401 ∨ code = 403 then .Unauthorized
    else if code = 429 then .RateLimited
    else .Other f.display
  | .timeout _ => .Timeout
  | .connect _ => .NetworkUnreachable

/-! ### The cursor-validity invariant and the registry step relation -/

/-- Both cursors are 0 on an empty registry and strictly in range
otherwise. -/
def cursorsValid (s : AppState) : Prop :=
  (s.accounts = [] → s.selected_index = 0 ∧ s.active_account_index = 0) ∧
  (s.accounts ≠ [] →
    s.selected_index < s.accounts.length ∧ s.active_account_index < s.accounts.length)

instance (s : AppState) : Decidable (cursorsValid s) := by
  unfold cursorsValid; infer_instance

/-- One registry mutation, as listed by the invariant claim: add, delete,
import, swap, or cursor navigation, with arbitrary inputs. -/
inductive RegistryStep : AppState → AppState → Prop where
  | add (s : AppState) (keyring : Keyring) (fail_set : String → Option String)
      (now : Int) (name session_key org_id : String) :
      RegistryStep s (s.add_account keyring fail_set now name session_key org_id).2.1
  | delete (s : AppState) (keyring : Keyring) (now : Int) :
      RegistryStep s (s.delete_selected keyring now).2
  | importAccount (s : AppState) (keyring : Keyring)
      (fail_set : String → Option String) (now : Int) (data : OAuthImportData) :
      RegistryStep s (s.import_oauth_account keyring fail_set now data).2.1
  | swap (s : AppState) (now : Int) : RegistryStep s (s.swap_to_selected now)
  | next (s : AppState) : RegistryStep s s.select_next
  | prev (s : AppState) : RegistryStep s s.select_prev

/-! ## Helper lemmas -/

/-- `updateFirst` leaves the list unchanged and reports no match when no
element satisfies the predicate. -/
theorem updateFirst_no_match (p : AccountState → Bool) (f : AccountState → AccountState) :
    ∀ (l : List AccountState), (∀ a ∈ l, p a = false) → updateFirst p f l = (l, false) := by
  intro l
  induction l with
  | nil => intro _; rfl
  | cons a rest ih =>
    intro h
    have ha := h a (List.mem_cons_self a rest)
    have hrest : ∀ b ∈ rest, p b = false := fun b hb => h b (List.mem_cons_of_mem a hb)
    simp [updateFirst, ha, ih hrest]

/-- `updateFirst` rewrites exactly the first matching element. -/
theorem updateFirst_first_match (p : AccountState → Bool) (f : AccountState → AccountState) :
    ∀ (l : List AccountState) (i : ℕ) (hi : i < l.length),
      (∀ a ∈ l.take i, p a = false) → p l[i] = true →
      updateFirst p f l = (l.set i (f l[i]), true) := by
  intro l
  induction l with
  | nil => intro i hi; exact absurd hi (by simp)
  | cons a rest ih =>
    intro i hi hbefore hmatch
    cases i with
    | zero =>
      simp only [List.getElem_cons_zero] at hmatch
      simp [updateFirst, hmatch]
    | succ n =>
      have ha : p a = false := hbefore a (by simp [List.take_succ_cons])
      have hn : n < rest.length := by simpa using hi
      have hrest : ∀ b ∈ rest.take n, p b = false := by
        intro b hb
        exact hbefore b (by simp [List.take_succ_cons, hb])
      have hm : p rest[n] = true := by simpa using hmatch
      simp [updateFirst, ha, ih n hn hrest hm]

/-- Setting index `i` of a list is visible through `getElem?` at `i`. -/
theorem getElem?_set_self {α : Type} : ∀ (l : List α) (i : ℕ), i < l.length →
    ∀ x : α, (l.set i x)[i]? = some x := by
  intro l
  induction l with
  | nil => intro i hi; exact absurd hi (by simp)
  | cons a rest ih =>
    intro i hi x
    cases i with
    | zero => simp
    | succ n =>
      have hn : n < rest.length := by simpa using hi
      simpa using ih n hn x

/-! ## Shared concrete sample values for witnesses -/

/-- A concrete usage snapshot. -/
def sampleUsage : UsageData :=
  { utilization := 50, resets_at := none, weekly_utilization := none, weekly_resets_at := none }

/-- A concrete idle session-key account. -/
def sampleAccount (name : String) : AccountState :=
  { config := { name := name, org_id := "org", auth_method := .SessionKey }
    usage := none
    status := .Idle
    last_fetched := none
    cached_token := none }

/-- A concrete one-account application state. -/
def sampleState : AppState :=
  { accounts := [sampleAccount "Alice"]
    selected_index := 0
    active_account_index := 0
    mode := .Normal
    should_quit := false
    last_poll := none
    status_message := none
    poll_interval_secs := 180
    logged_in_account := none }

/-! ## C2: discarded results are invisible -/

/-- C2: for every registry state and every fetch result tagged with a name
not present in the registry, `apply_usage_result` leaves every account
(usage, status, last_fetched) unchanged and leaves the global last-poll
timestamp unchanged. -/
theorem apply_result_discard_on_miss (s : AppState) (now : Int) (account_name : String)
    (result : Except String UsageData)
    (habsent : ∀ a ∈ s.accounts, a.config.name ≠ account_name) :
    (s.apply_usage_result now account_name result).accounts = s.accounts ∧
    (s.apply_usage_result now account_name result).last_poll = s.last_poll := by
  have hmain : s.apply_usage_result now account_name result = s := by
    unfold AppState.apply_usage_result
    rw [updateFirst_no_match _ _ s.accounts (by
      intro a ha
      simp [habsent a ha])]
    simp
  rw [hmain]
  exact ⟨rfl, rfl⟩

/-- Witness for C2 at a concrete state: a result for the deleted name Bob
changes nothing about the registry holding only Alice. -/
theorem apply_result_discard_on_miss_witness :
    (sampleState.apply_usage_result 5 "Bob" (.ok sampleUsage)).accounts = sampleState.accounts ∧
    (sampleState.apply_usage_result 5 "Bob" (.ok sampleUsage)).last_poll = sampleState.last_poll :=
  apply_result_discard_on_miss sampleState 5 "Bob" (.ok sampleUsage) (by decide)

/-! ## C3: applying a result to a present account -/

/-- C3: for an account present in the registry (the first one carrying the
routed name), a success replaces the usage snapshot wholesale, sets status
Ok and sets `last_fetched = now`; an error sets status `Error(reason)`
while the account's usage snapshot and `last_fetched` stay exactly what
they were. -/
theorem apply_result_present_updates (s : AppState) (now : Int) (i : ℕ)
    (hi : i < s.accounts.length)
    (hfirst : ∀ a ∈ s.accounts.take i, a.config.name ≠ s.accounts[i].config.name) :
    (∀ data : UsageData,
      (s.apply_usage_result now s.accounts[i].config.name (.ok data)).accounts[i]? =
        some { s.accounts[i] with
               usage := some data
               status := .Ok
               last_fetched := some now }) ∧
    (∀ msg : String,
      (s.apply_usage_result now s.accounts[i].config.name (.error msg)).accounts[i]? =
        some { s.accounts[i] with status := .Error msg }) := by
  constructor
  · intro data
    unfold AppState.apply_usage_result
    rw [updateFirst_first_match _ _ s.accounts i hi
      (by intro a ha; simp [hfirst a ha]) (by simp)]
    simpa using getElem?_set_self s.accounts i hi _
  · intro msg
    unfold AppState.apply_usage_result
    rw [updateFirst_first_match _ _ s.accounts i hi
      (by intro a ha; simp [hfirst a ha]) (by simp)]
    simpa using getElem?_set_self s.accounts i hi _

/-- Witness for C3 at a concrete state: Alice's success stores the fresh
snapshot with status Ok and the fetch time; a later error keeps them. -/
theorem apply_result_present_updates_witness :
    (sampleState.apply_usage_result 7 "Alice" (.ok sampleUsage)).accounts[0]? =
      some { sampleAccount "Alice" with
             usage := some sampleUsage
             status := .Ok
             last_fetched := some 7 } ∧
    (sampleState.apply_usage_result 7 "Alice" (.error "boom")).accounts[0]? =
      some { sampleAccount "Alice" with status := .Error "boom" } := by
  have h := apply_result_present_updates sampleState 7 0 (by decide) (by decide)
  exact ⟨h.1 sampleUsage, h.2 "boom"⟩

/-! ## C6: utilization normalization -/

/-- A bucket whose utilization is the (nonsensical but representable) JSON
number -1. -/
def negBucket : Json := .obj [("utilization", .int (-1))]

/-- Counterexample to C6 as stated: for the numeric utilization value -1
(which is neither in (0, 1] nor missing), the claim says the parsed
utilization equals the value rounded to an integer, i.e. -1; the code's
saturating u32 cast makes it 0 instead. -/
theorem parse_utilization_negative_counterexample :
    parse_utilization negBucket = 0 ∧ rustRound (-1 : ℚ) = -1 ∧
    ¬ ((parse_utilization negBucket : Int) = rustRound (-1 : ℚ)) := by
  have h1 : parse_utilization negBucket = 0 := by
    norm_num [parse_utilization, negBucket, Json.get, Json.findField, json_numeric_value,
      Json.asU64, Json.asF64, rustRound, castU32]
  have h2 : rustRound (-1 : ℚ) = -1 := by
    norm_num [rustRound]
  refine ⟨h1, h2, ?_⟩
  rw [h1, h2]
  norm_num

/-- C6 as amended: the parsed utilization is the value times 100 and
rounded when the value is in (0, 1], and otherwise the value rounded and
then saturated into the u32 range (so negative values give 0); a missing
utilization gives 0; in particular 0.73 normalizes to 73, 73 to 73 and 0
to 0. -/
theorem parse_utilization_normalizes (v : Json) (q : ℚ)
    (hv : json_numeric_value v = some q) :
    (parse_utilization (Json.obj [("utilization", v)]) =
      if 0 < q ∧ q ≤ 1 then castU32 (rustRound (q * 100)) else castU32 (rustRound q)) ∧
    parse_utilization (Json.obj []) = 0 ∧
    parse_utilization (Json.obj [("utilization", Json.float (73 / 100))]) = 73 ∧
    parse_utilization (Json.obj [("utilization", Json.int 73)]) = 73 ∧
    parse_utilization (Json.obj [("utilization", Json.int 0)]) = 0 := by
  refine ⟨?_, ?_, ?_, ?_, ?_⟩
  · simp [parse_utilization, Json.get, Json.findField, hv]
  · simp [parse_utilization, Json.get, Json.findField]
  · norm_num [parse_utilization, Json.get, Json.findField, json_numeric_value,
      Json.asU64, Json.asF64, rustRound, castU32]
    omega
  · norm_num [parse_utilization, Json.get, Json.findField, json_numeric_value,
      Json.asU64, Json.asF64, rustRound, castU32]
    omega
  · norm_num [parse_utilization, Json.get, Json.findField, json_numeric_value,
      Json.asU64, Json.asF64, rustRound, castU32]

/-- Witness for C6 (amended) at the fraction 0.73: the parse result equals
the normalization formula there. -/
theorem parse_utilization_normalizes_witness :
    parse_utilization (Json.obj [("utilization", Json.float (73 / 100))]) =
      (if 0 < (73 / 100 : ℚ) ∧ (73 / 100 : ℚ) ≤ 1
        then castU32 (rustRound ((73 / 100 : ℚ) * 100))
        else castU32 (rustRound (73 / 100 : ℚ))) :=
  (parse_utilization_normalizes (Json.float (73 / 100)) (73 / 100) rfl).1

/-! ## C7: external JSON shape round trip -/

/-- `as_i64` succeeds on an integer-stored number in the i64 range. -/
theorem asI64_int_of_range {n : Int} (h1 : -(2 ^ 63) ≤ n) (h2 : n < 2 ^ 63) :
    (Json.int n).asI64 = some n := by
  simp only [Json.asI64]
  rw [if_pos ⟨h1, h2⟩]

/-- C7: encoding an OAuth credential into the external tool's JSON shape
(the claudeAiOauth wrapper with accessToken/refreshToken/expiresAt) and
decoding it back yields the same access token, refresh token and expiry.
The expiry is an i64 in the source; the range bounds state that. -/
theorem claude_code_roundtrip (c : OAuthCredential)
    (hlow : -(2 ^ 63) ≤ c.expires_at) (hhigh : c.expires_at < 2 ^ 63) :
    parse_credential_json (claude_code_json c) = .ok c := by
  have hi64 := asI64_int_of_range hlow hhigh
  simp [parse_credential_json, claude_code_json, Json.get, Json.findField, Json.asStr, hi64]

/-- A concrete OAuth credential for the round-trip witness. -/
def sampleCredential : OAuthCredential :=
  { access_token := "tok", refresh_token := "ref", expires_at := 1893456000000 }

/-- Witness for C7 at a concrete credential. -/
theorem claude_code_roundtrip_witness :
    parse_credential_json (claude_code_json sampleCredential) = .ok sampleCredential :=
  claude_code_roundtrip sampleCredential (by norm_num [sampleCredential])
    (by norm_num [sampleCredential])

/-! ## C9: missing expiry defaults to epoch 0, hence permanently refreshable -/

/-- C9: when the external credential blob has no expiry field at all (under
either historical name, on the node the decoder reads), the decoder
produces expiry 0, and such a credential needs refresh at every present or
future time. -/
theorem missing_expiry_always_needs_refresh (j : Json) (c : OAuthCredential)
    (hparse : parse_credential_json j = .ok c)
    (h1 : ((j.get "claudeAiOauth").getD j).get "expiresAt" = none)
    (h2 : ((j.get "claudeAiOauth").getD j).get "expires_at" = none) :
    c.expires_at = 0 ∧ ∀ now : Int, 0 ≤ now → needs_refresh now c = true := by
  have hzero : c.expires_at = 0 := by
    simp only [parse_credential_json] at hparse
    rw [h1, h2] at hparse
    simp only [Option.none_bind, Option.getD_none] at hparse
    split at hparse
    · exact absurd hparse (by simp)
    · split at hparse
      · exact absurd hparse (by simp)
      · simp only [Except.ok.injEq] at hparse
        rw [← hparse]
  refine ⟨hzero, ?_⟩
  intro now hnow
  simp only [needs_refresh, hzero, decide_eq_true_eq]
  omega

/-- A blob with the claudeAiOauth wrapper and no expiry field, as in the
repository's own regression test. -/
def missingExpiryBlob : Json :=
  .obj [("claudeAiOauth",
    .obj [("accessToken", .str "tok"), ("refreshToken", .str "ref")])]

/-- Witness for C9 at the concrete blob without an expiry. -/
theorem missing_expiry_always_needs_refresh_witness :
    ({ access_token := "tok", refresh_token := "ref", expires_at := 0 } :
      OAuthCredential).expires_at = 0 ∧
    needs_refresh 1700000000000
      { access_token := "tok", refresh_token := "ref", expires_at := 0 } = true := by
  have h := missing_expiry_always_needs_refresh missingExpiryBlob
    { access_token := "tok", refresh_token := "ref", expires_at := 0 }
    rfl rfl rfl
  exact ⟨h.1, h.2 1700000000000 (by norm_num)⟩

/-! ## C1: anti-spoofing refresh adoption -/

/-- C1: when the stored credential needs refresh, the reconciler adopts the
externally observed credential — writes it to the store under the account
name and returns its access token — exactly when that credential is live
and its refresh token equals the stored one (adoption is the keyring write
in the call trace); when the refresh tokens differ it returns the stored
(expired) access token and the store is returned untouched. -/
theorem refresh_adoption_guard (now : Int) (store : OAuthStore) (account_name : String)
    (blob : Json) (cred fresh : OAuthCredential)
    (hstore : store.get account_name = some blob)
    (hcred : credential_from_json blob = .ok cred)
    (hexp : needs_refresh now cred = true) :
    (KeyOp.set account_name ∈
        (get_stored_token_with_fallback now store account_name (some fresh)).2.2 ↔
      (needs_refresh now fresh = false ∧ fresh.refresh_token = cred.refresh_token)) ∧
    ((needs_refresh now fresh = false ∧ fresh.refresh_token = cred.refresh_token) →
      get_stored_token_with_fallback now store account_name (some fresh) =
        (.ok fresh.access_token, store.set account_name (credential_to_json fresh),
          [KeyOp.get account_name, KeyOp.set account_name])) ∧
    (fresh.refresh_token ≠ cred.refresh_token →
      get_stored_token_with_fallback now store account_name (some fresh) =
        (.ok cred.access_token, store, [KeyOp.get account_name])) := by
  by_cases hc : needs_refresh now fresh = false ∧ fresh.refresh_token = cred.refresh_token
  · refine ⟨?_, ?_, ?_⟩
    · simp [get_stored_token_with_fallback, hstore, hcred, hexp, hc]
    · intro _
      simp [get_stored_token_with_fallback, hstore, hcred, hexp, hc]
    · intro hne
      exact absurd hc.2 hne
  · refine ⟨?_, ?_, ?_⟩
    · simp [get_stored_token_with_fallback, hstore, hcred, hexp, hc]
    · intro h
      exact absurd h hc
    · intro _
      simp [get_stored_token_with_fallback, hstore, hcred, hexp, hc]

/-- Alice's stored, long-expired credential. -/
def aliceStoredCred : OAuthCredential :=
  { access_token := "old-token", refresh_token := "same-refresh", expires_at := 0 }

/-- The live credential observed externally, for the same account. -/
def aliceFreshCred : OAuthCredential :=
  { access_token := "new-token", refresh_token := "same-refresh",
    expires_at := 1800000000000 }

/-- The OAuth store holding Alice's serialized credential. -/
def aliceStore : OAuthStore := [("alice", credential_to_json aliceStoredCred)]

/-- Witness for C1: with a matching refresh token and a live external
credential, the reconciler adopts it — stores it under "alice" and returns
the fresh access token. -/
theorem refresh_adoption_guard_witness :
    get_stored_token_with_fallback 1700000000000 aliceStore "alice" (some aliceFreshCred) =
      (.ok "new-token", aliceStore.set "alice" (credential_to_json aliceFreshCred),
        [KeyOp.get "alice", KeyOp.set "alice"]) := by
  have h := refresh_adoption_guard 1700000000000 aliceStore "alice"
    (credential_to_json aliceStoredCred) aliceStoredCred aliceFreshCred
    rfl rfl (by decide)
  exact h.2.1 ⟨by decide, rfl⟩

/-! ## C4: rename writes the new secret before deleting the old -/

/-- C4: a rename writes the secret under the new name before deleting the
old one (visible in the keyring call trace), and when the write for the
new name fails the operation stops with an error status, the keyring (so
the old name's secret) is untouched and the registry entry is unchanged. -/
theorem rename_writes_before_delete (s : AppState) (keyring : Keyring)
    (fail_set : String → Option String) (now : Int) (index : ℕ)
    (name session_key org_id : String) (acc : AccountState)
    (hidx : s.accounts[index]? = some acc)
    (hrename : acc.config.name ≠ name) :
    (fail_set name = none →
      (s.update_account keyring fail_set now index name session_key org_id).2.2 =
        [KeyOp.set name, KeyOp.delete acc.config.name]) ∧
    (∀ msg, fail_set name = some msg →
      (s.update_account keyring fail_set now index name session_key org_id).1 = keyring ∧
      (s.update_account keyring fail_set now index name session_key org_id).2.1.accounts =
        s.accounts ∧
      (s.update_account keyring fail_set now index name session_key org_id).1.get
          acc.config.name = keyring.get acc.config.name ∧
      (s.update_account keyring fail_set now index name session_key org_id).2.1.status_message
        = some ("Keyring error: " ++ msg, now) ∧
      (s.update_account keyring fail_set now index name session_key org_id).2.2 =
        [KeyOp.set name]) := by
  constructor
  · intro hok
    simp [AppState.update_account, hidx, hok, hrename]
  · intro msg hfail
    simp [AppState.update_account, AppState.set_status, hidx, hfail]

/-- The account list for the rename scenario. -/
def renameState : AppState :=
  { accounts := [sampleAccount "OldName"]
    selected_index := 0
    active_account_index := 0
    mode := .Normal
    should_quit := false
    last_poll := none
    status_message := none
    poll_interval_secs := 180
    logged_in_account := none }

/-- A keyring holding OldName's secret. -/
def renameKeyring : Keyring := [("OldName", "old-secret-key")]

/-- A backend whose write fails exactly for NewName. -/
def failOnNewName (n : String) : Option String :=
  if n = "NewName" then some "Simulated keyring write failure" else none

/-- Witness for C4: renaming OldName to NewName while the write for
NewName fails leaves the keyring — hence OldName's secret — and the
registry untouched, with only the failed set call in the trace. -/
theorem rename_writes_before_delete_witness :
    (renameState.update_account renameKeyring failOnNewName 3 0 "NewName" "new-key"
        "org-new").1 = renameKeyring ∧
    (renameState.update_account renameKeyring failOnNewName 3 0 "NewName" "new-key"
        "org-new").2.1.accounts = renameState.accounts ∧
    (renameState.update_account renameKeyring failOnNewName 3 0 "NewName" "new-key"
        "org-new").1.get "OldName" = renameKeyring.get "OldName" ∧
    (renameState.update_account renameKeyring failOnNewName 3 0 "NewName" "new-key"
        "org-new").2.1.status_message =
      some ("Keyring error: " ++ "Simulated keyring write failure", 3) ∧
    (renameState.update_account renameKeyring failOnNewName 3 0 "NewName" "new-key"
        "org-new").2.2 = [KeyOp.set "NewName"] := by
  have h := rename_writes_before_delete renameState renameKeyring failOnNewName 3 0
    "NewName" "new-key" "org-new" (sampleAccount "OldName") rfl (by decide)
  exact h.2 "Simulated keyring write failure" rfl

/-! ## C5: the swap path never pushes the credential and always advances -/

/-- A concrete OAuth account. -/
def oauthAccount (name : String) : AccountState :=
  { config := { name := name, org_id := "org", auth_method := .OAuth }
    usage := none
    status := .Idle
    last_fetched := none
    cached_token := none }

/-- State with the OAuth account alice selected and Bob active. -/
def swapState : AppState :=
  { accounts := [oauthAccount "alice", sampleAccount "Bob"]
    selected_index := 0
    active_account_index := 1
    mode := .Normal
    should_quit := false
    last_poll := none
    status_message := none
    poll_interval_secs := 180
    logged_in_account := none }

/-- C5 fails on the code: `swap_to_selected` advances the active-account
cursor and reports success while performing no credential push at all —
here alice's credential is absent from the store, so any push would fail
(`swap_claude_code_credential` errors), yet the cursor still advances.
(`swap_claude_code_credential` is never called by the application.) -/
theorem swap_advances_cursor_without_push :
    (swapState.swap_to_selected 0).active_account_index = 0 ∧
    (swapState.swap_to_selected 0).status_message = some ("Active: " ++ "alice", 0) ∧
    swap_claude_code_credential [] "alice" AuthMethod.OAuth =
      .error ("No OAuth credential for " ++ "alice") := by
  refine ⟨rfl, rfl, rfl⟩

/-! ## C8: fetch failure translation -/

/-- The OAuth usage endpoint, for concrete failures. -/
def usageUrl : String := "https://api.anthropic.com/api/oauth/usage"

/-- Counterexample to C8 as stated: the error delivered to reconciliation
cannot be (a rendering of) the five-kind classification, because the spec
classifies 401 and 403 identically (Unauthorized) while the code delivers
two different strings for them — the code delivers the formatted error
chain, not a classified kind. -/
theorem fetch_failure_not_classified :
    ¬ ∃ render : SpecErrorKind → String, ∀ f : HttpFailure,
        fetch_account_usage AuthMethod.SessionKey (.ok "sk") (.ok "tok") (.error f) =
          .error (render (spec_classify f)) := by
  rintro ⟨render, h⟩
  have h401 := h (.status 401 "Unauthorized" usageUrl)
  have h403 := h (.status 403 "Forbidden" usageUrl)
  simp only [fetch_account_usage, Except.error.injEq] at h401 h403
  have hk1 : spec_classify (.status 401 "Unauthorized" usageUrl) = .Unauthorized := rfl
  have hk2 : spec_classify (.status 403 "Forbidden" usageUrl) = .Unauthorized := rfl
  rw [hk1] at h401
  rw [hk2] at h403
  have hsame : (HttpFailure.status 401 "Unauthorized" usageUrl).display =
      (HttpFailure.status 403 "Forbidden" usageUrl).display := by
    rw [h401, h403]
  exact absurd hsame (by decide)

/-- C8 as amended: every fetch failure is translated, centrally in
`fetch_account_usage`, into a String (the formatted error chain of the
failure) regardless of auth method, and that very string is what
reconciliation records as the account's error status; the program's
structured error taxonomy (`TrackerError`) has exactly the kinds Config,
Api, Swap and Keyring. -/
theorem fetch_failure_delivered_as_string (f : HttpFailure) (sk tok : String)
    (s : AppState) (now : Int) (i : ℕ) (hi : i < s.accounts.length)
    (hfirst : ∀ a ∈ s.accounts.take i, a.config.name ≠ s.accounts[i].config.name) :
    fetch_account_usage (s.accounts[i].config.auth_method) (.ok sk) (.ok tok) (.error f) =
      .error f.display ∧
    (s.apply_usage_result now (s.accounts[i].config.name)
        (fetch_account_usage (s.accounts[i].config.auth_method) (.ok sk) (.ok tok)
          (.error f))).accounts[i]? =
      some { s.accounts[i] with status := .Error f.display } ∧
    (∀ e : TrackerError, e.kindName ∈ ["Config", "Api", "Swap", "Keyring"]) := by
  have hcentral : fetch_account_usage (s.accounts[i].config.auth_method) (.ok sk) (.ok tok)
      (.error f) = .error f.display := by
    cases s.accounts[i].config.auth_method <;> rfl
  refine ⟨hcentral, ?_, ?_⟩
  · rw [hcentral]
    unfold AppState.apply_usage_result
    rw [updateFirst_first_match _ _ s.accounts i hi
      (by intro a ha; simp [hfirst a ha]) (by simp)]
    simpa using getElem?_set_self s.accounts i hi _
  · intro e
    cases e <;> simp [TrackerError.kindName]

/-- Witness for C8 (amended): a concrete timeout against the registry
holding alice (OAuth) and Bob. -/
theorem fetch_failure_delivered_as_string_witness :
    fetch_account_usage ((swapState.accounts[0]).config.auth_method) (.ok "sk") (.ok "tok")
      (.error (.timeout usageUrl)) = .error (HttpFailure.timeout usageUrl).display ∧
    (swapState.apply_usage_result 9 ((swapState.accounts[0]).config.name)
        (fetch_account_usage ((swapState.accounts[0]).config.auth_method) (.ok "sk")
          (.ok "tok") (.error (.timeout usageUrl)))).accounts[0]? =
      some { swapState.accounts[0] with
             status := .Error (HttpFailure.timeout usageUrl).display } ∧
    (∀ e : TrackerError, e.kindName ∈ ["Config", "Api", "Swap", "Keyring"]) := by
  exact fetch_failure_delivered_as_string (.timeout usageUrl) "sk" "tok" swapState 9 0
    (by decide) (by decide)

/-! ## C10: cursor validity -/

/-- `set_status` does not touch accounts or cursors. -/
theorem cursorsValid_set_status (s : AppState) (msg : String) (now : Int) :
    cursorsValid (s.set_status msg now) ↔ cursorsValid s := by
  simp [AppState.set_status, cursorsValid]

/-- `from_config` establishes cursor validity for every config, including
one whose persisted active-account index is out of range. -/
theorem cursorsValid_from_config (config : Config) (keyring : Keyring) :
    cursorsValid (AppState.from_config config keyring) := by
  unfold AppState.from_config cursorsValid
  by_cases hempty : config.accounts = []
  · constructor
    · intro _
      simp [hempty]
    · intro habs
      simp [hempty] at habs
  · constructor
    · intro habs
      simp [hempty] at habs
    · intro _
      have hlen : 0 < config.accounts.length := List.length_pos.mpr hempty
      simp only [List.length_map]
      omega

/-- `add_account` preserves cursor validity. -/
theorem cursorsValid_add_account (s : AppState) (keyring : Keyring)
    (fail_set : String → Option String) (now : Int) (name session_key org_id : String)
    (h : cursorsValid s) :
    cursorsValid (s.add_account keyring fail_set now name session_key org_id).2.1 := by
  unfold AppState.add_account
  split
  · simpa [cursorsValid, AppState.set_status] using h
  · split
    · simpa [cursorsValid, AppState.set_status] using h
    · obtain ⟨hemp, hne⟩ := h
      constructor
      · intro habs
        simp at habs
      · intro _
        simp only [List.length_append, List.length_cons, List.length_nil]
        by_cases hc : s.accounts = []
        · have := hemp hc
          omega
        · have := hne hc
          omega

/-- `delete_selected` preserves cursor validity. -/
theorem cursorsValid_delete_selected (s : AppState) (keyring : Keyring) (now : Int)
    (h : cursorsValid s) : cursorsValid (s.delete_selected keyring now).2 := by
  unfold AppState.delete_selected
  split
  · rename_i hlt
    have hlen : (s.accounts.eraseIdx s.selected_index).length = s.accounts.length - 1 :=
      List.length_eraseIdx_of_lt hlt
    simp only [cursorsValid]
    by_cases he : (s.accounts.eraseIdx s.selected_index).isEmpty
    · constructor
      · intro _
        simp [he]
      · intro hne
        exact absurd (List.isEmpty_iff.mp he) hne
    · have hpos : 0 < (s.accounts.eraseIdx s.selected_index).length :=
        List.length_pos.mpr (by simpa [List.isEmpty_iff] using he)
      constructor
      · intro habs
        exact absurd (List.isEmpty_iff.mpr habs) he
      · intro _
        simp only [he, Bool.false_eq_true, if_false]
        constructor
        · split
          · omega
          · omega
        · split
          · omega
          · omega
  · exact h

/-- `import_oauth_account` preserves cursor validity. -/
theorem cursorsValid_import_oauth (s : AppState) (keyring : Keyring)
    (fail_set : String → Option String) (now : Int) (data : OAuthImportData)
    (h : cursorsValid s) :
    cursorsValid (s.import_oauth_account keyring fail_set now data).2.1 := by
  unfold AppState.import_oauth_account
  split
  · simpa [cursorsValid, AppState.set_status] using h
  · split
    · -- update in place: the account list keeps its length
      rename_i pos hpos
      obtain ⟨hemp, hne⟩ := h
      simp only [cursorsValid]
      cases hg : s.accounts.get? pos with
      | none =>
        have hge : s.accounts.length ≤ pos := by
          rw [List.get?_eq_getElem?] at hg
          exact List.getElem?_eq_none_iff.mp hg
        simp only [hg]
        constructor
        · intro habs
          have h0 := congrArg List.length habs
          simp only [List.length_append, List.length_take, List.length_drop,
            List.length_nil] at h0
          exact hemp (List.length_eq_zero.mp (by omega))
        · intro hne2
          have hsne : s.accounts ≠ [] := by
            intro hnil
            apply hne2
            simp [hnil]
          have hb := hne hsne
          simp only [List.length_append, List.length_take, List.length_drop,
            List.length_nil]
          omega
      | some a =>
        have hlt : pos < s.accounts.length := by
          rw [List.get?_eq_getElem?] at hg
          exact (List.getElem?_eq_some_iff.mp hg).1
        simp only [hg]
        constructor
        · intro habs
          have h0 := congrArg List.length habs
          simp [List.length_take, List.length_drop] at h0
        · intro hne2
          have hsne : s.accounts ≠ [] := by
            intro hnil
            rw [hnil] at hlt
            simp at hlt
          have hb := hne hsne
          simp only [List.length_append, List.length_take, List.length_drop,
            List.length_cons, List.length_nil]
          omega
    · -- append a fresh account
      obtain ⟨hemp, hne⟩ := h
      constructor
      · intro habs
        simp at habs
      · intro _
        simp only [List.length_append, List.length_cons, List.length_nil]
        by_cases hc : s.accounts = []
        · have := hemp hc
          omega
        · have := hne hc
          omega

/-- `swap_to_selected` preserves cursor validity. -/
theorem cursorsValid_swap_to_selected (s : AppState) (now : Int)
    (h : cursorsValid s) : cursorsValid (s.swap_to_selected now) := by
  unfold AppState.swap_to_selected
  split
  · rename_i hlt
    constructor
    · intro hemp
      rw [hemp] at hlt
      simp at hlt
    · intro _
      exact ⟨hlt, hlt⟩
  · exact h

/-- Moving the selection down preserves cursor validity. -/
theorem cursorsValid_select_next (s : AppState) (h : cursorsValid s) :
    cursorsValid s.select_next := by
  unfold AppState.select_next
  split
  · exact h
  · rename_i hne
    have hnil : s.accounts ≠ [] := by
      simpa [List.isEmpty_iff] using hne
    have hlen : 0 < s.accounts.length := List.length_pos.mpr hnil
    constructor
    · intro habs
      exact absurd habs hnil
    · intro _
      exact ⟨Nat.mod_lt _ hlen, (h.2 hnil).2⟩

/-- Moving the selection up preserves cursor validity. -/
theorem cursorsValid_select_prev (s : AppState) (h : cursorsValid s) :
    cursorsValid s.select_prev := by
  unfold AppState.select_prev
  split
  · exact h
  · rename_i hne
    have hnil : s.accounts ≠ [] := by
      simpa [List.isEmpty_iff] using hne
    have hlen : 0 < s.accounts.length := List.length_pos.mpr hnil
    have hsel := (h.2 hnil).1
    have hact := (h.2 hnil).2
    split
    · constructor
      · intro habs
        exact absurd habs hnil
      · intro _
        refine ⟨?_, hact⟩
        show s.accounts.length - 1 < s.accounts.length
        omega
    · constructor
      · intro habs
        exact absurd habs hnil
      · intro _
        refine ⟨?_, hact⟩
        show s.selected_index - 1 < s.accounts.length
        omega

/-- C10: the cursor-validity invariant — both cursors are 0 on an empty
registry and strictly within the account count otherwise — is established
by `from_config` for every config (even with an out-of-range persisted
active index) and preserved by every registry mutation: add, delete,
import, swap and cursor navigation. -/
theorem cursor_validity_invariant :
    (∀ (config : Config) (keyring : Keyring),
      cursorsValid (AppState.from_config config keyring)) ∧
    (∀ s t : AppState, cursorsValid s → RegistryStep s t → cursorsValid t) := by
  constructor
  · exact cursorsValid_from_config
  · intro s t hs hstep
    cases hstep with
    | add keyring fail_set now name session_key org_id =>
      exact cursorsValid_add_account s keyring fail_set now name session_key org_id hs
    | delete keyring now => exact cursorsValid_delete_selected s keyring now hs
    | importAccount keyring fail_set now data =>
      exact cursorsValid_import_oauth s keyring fail_set now data hs
    | swap now => exact cursorsValid_swap_to_selected s now hs
    | next => exact cursorsValid_select_next s hs
    | prev => exact cursorsValid_select_prev s hs

/-- Witness for C10: a concrete swap step from a concrete valid state
yields a valid state. -/
theorem cursor_validity_invariant_witness :
    cursorsValid (swapState.swap_to_selected 0) :=
  cursor_validity_invariant.2 swapState (swapState.swap_to_selected 0) (by decide)
    (RegistryStep.swap swapState 0)
